import Mathlib

/-!
Verification of the prompt-synthesis and generation service of `movieai.py`.

Python strings are embedded as `List Char`; the Python substring operator
`in` is embedded as the boolean search `occursB`.  The Groq completion
endpoint is an external collaborator and is embedded as a function from the
request record to either a response (a list of choices, each carrying an
optional message content, as in the Groq SDK) or a raised fault carrying its
message text.  The `st.error` calls of the failure branches are recorded as
a structured `Outcome`, and the requests issued are recorded in a call list,
so that call-contract and classification claims can be stated.
-/

namespace MovieAI

set_option maxRecDepth 20000

set_option maxHeartbeats 1000000

/-- Character lists stand in for Python strings throughout this development. -/
abbrev Str : Type := List Char

/-- Boolean test that the first list is an initial segment of the second. -/
def leadsB : Str → Str → Bool
  | [], _ => true
  | _ :: _, [] => false
  | a :: n, b :: h => a == b && leadsB n h

/-- Boolean test that the first list is a final segment of the second. -/
def endsB (n h : Str) : Bool := leadsB n.reverse h.reverse

/-- Boolean substring search, mirroring the Python `in` operator on strings. -/
def occursB (n : Str) : Str → Bool
  | [] => leadsB n []
  | c :: t => leadsB n (c :: t) || occursB n t

/-- Test whether some proper, nonempty final segment of the first list is an
initial segment of the second; used to rule out occurrences that straddle a
concatenation boundary. -/
def someTailLeads : Str → Str → Bool
  | [], _ => false
  | _ :: t, b =>
    match t with
    | [] => false
    | _ :: _ => leadsB t b || someTailLeads t b

/-- The fixed shot list of `movieai.py` (`MOVIE_SHOT_TYPES`, lines 13-19). -/
def MOVIE_SHOT_TYPES : List Str :=
  [ ("Master/Establishing Shot".data), ("Full Shot".data), ("Medium Shot".data),
    ("Medium Close-Up Shot".data),
    ("Close-Up Shot".data), ("Extreme Close-Up Shot".data), ("Extreme Angle".data),
    ("Bird\x27s-Eye View".data),
    ("Low Angle".data), ("Depth Staging".data), ("Planar Staging".data),
    ("Pull Back Reveal".data),
    ("Contract Dolly".data), ("Point of View (POV)".data), ("Dark Voyeur".data),
    ("Shadow".data),
    ("Follow Shot".data), ("Over the shoulder".data) ]

/-- Python `", ".join`, specialised to the separator used at line 27. -/
def commaJoin : List Str → Str
  | [] => []
  | [s] => s
  | s :: t :: r => s ++ (", ".data) ++ commaJoin (t :: r)

/-- The `shot_instructions` string built at line 27 of `movieai.py`. -/
def shot_instructions : Str :=
  ("Please incorporate a variety of camera shots and angles from this list into your scene descriptions and stage directions: ".data)
    ++ commaJoin MOVIE_SHOT_TYPES ++ (".".data)

/-- The format-keyed fragment selection of lines 30-36: a chain of string
equality tests starting from the empty string, with no fallback branch. -/
def format_specific_instructions (output_format : Str) : Str :=
  if output_format = ("Storyboard Text".data) then
    ("Focus on visual descriptions for each shot, suitable for a text-based storyboard. Describe key visuals and camera movements. Do not include dialogue unless essential for a scene beat. For each \x27panel\x27, briefly describe the shot and action. Use clear section headers for each panel.".data)
  else if output_format = ("Dialog Script".data) then
    ("Prioritize character dialogue and essential action beats, with minimal camera directions. Format as a standard dialogue-focused screenplay.".data)
  else if output_format = ("Shooting Script".data) then
    ("Include detailed scene headings, character dialogue, specific action descriptions, and explicit camera shot descriptions. Format as a comprehensive shooting script, adhering to standard industry conventions (CAPS for characters/headings, proper indentation).".data)
  else ("".data)

/-- The length-keyed fragment selection of lines 39-45, same shape. -/
def length_specific_instructions (video_length_style : Str) : Str :=
  if video_length_style = ("TikTok (Short Video - ~30s)".data) then
    ("Keep the scene extremely short and impactful, ideal for a quick social media video. Aim for 3-5 concise shots/dialogue exchanges.".data)
  else if video_length_style = ("YouTube (Medium Video - 1-3 min)".data) then
    ("Generate a single, coherent scene suitable for a short online video. Aim for 5-10 shots/dialogue exchanges.".data)
  else if video_length_style = ("Film Scene (Longer Scene - 3+ min)".data) then
    ("Develop a more detailed and expansive scene, suitable for a segment of a film. Include more character interaction and environmental detail. Aim for 10-20 shots/dialogue exchanges. The scene should be long enough to fill 3+ minutes.".data)
  else ("".data)

/-- The literal text of the f-string of lines 47-61 up to the `movie_type`
interpolation, with the 4-space indentation of the triple-quoted literal. -/
def promptHeader : Str :=
  ("\n    You are an AI writer and director. Your task is to generate creative content for a single scene\n    based on the user\x27s requested movie type, output format, and desired video length/style.\n    \n    Movie Type: ".data)

/-- The text of the f-string after the `movie_type` interpolation: the
remaining literal parts with the interpolated format, length, shot
instructions and the two selected fragments. -/
def afterTopic (output_format video_length_style : Str) : Str :=
  ("\n    Output Format: ".data) ++ output_format
    ++ ("\n    Video Length/Style: ".data) ++ video_length_style
    ++ ("\n    \n    ".data) ++ shot_instructions
    ++ ("\n    \n    ".data) ++ format_specific_instructions output_format
    ++ ("\n    ".data) ++ length_specific_instructions video_length_style
    ++ ("\n    \n    Ensure the output is well-structured according to the chosen format.\n    ".data)

/-- The composed prompt of lines 47-61 (`prompt = f"""..."""`). -/
def promptOf (movie_type output_format video_length_style : Str) : Str :=
  promptHeader ++ movie_type ++ afterTopic output_format video_length_style

/-- The closed format enumeration offered by the selectbox at lines 151-154. -/
def outputFormats : List Str :=
  [("Shooting Script".data), ("Dialog Script".data), ("Storyboard Text".data)]

/-- The closed length/style enumeration offered by the selectbox at lines 156-159. -/
def lengthStyles : List Str :=
  [ ("Film Scene (Longer Scene - 3+ min)".data),
    ("YouTube (Medium Video - 1-3 min)".data),
    ("TikTok (Short Video - ~30s)".data) ]

/-- The six instruction fragments selectable by the two enumerations. -/
def allInstructionFragments : List Str :=
  outputFormats.map format_specific_instructions
    ++ lengthStyles.map length_specific_instructions

/-- A message of the outbound request body (`{"role": ..., "content": ...}`). -/
structure RequestMessage where
  role : Str
  content : Str
deriving DecidableEq

/-- The outbound request issued by `chat.completions.create` at lines 65-70
and 201-206: model, messages, temperature and max_tokens. -/
structure ChatRequest where
  model : Str
  messages : List RequestMessage
  temperature : ℚ
  max_tokens : ℕ
deriving DecidableEq

/-- A response message; its content is optional, as in the Groq SDK. -/
structure ResponseMessage where
  content : Option Str
deriving DecidableEq

/-- One choice of a completion response. -/
structure Choice where
  message : ResponseMessage
deriving DecidableEq

/-- A completion response: a list of choices. -/
structure ChatResponse where
  choices : List Choice
deriving DecidableEq

/-- Outcome of one endpoint call: a response, or a raised fault carrying the
text that `str(e)` would produce. -/
inductive CallResult where
  | ok (response : ChatResponse)
  | raised (message : Str)
deriving DecidableEq

/-- Python `str.isspace` on the ASCII whitespace characters that
`str.strip()` removes. -/
def pyIsSpace (c : Char) : Bool :=
  c == ' ' || c == '\t' || c == '\n' || c == '\x0d' || c == '\x0b' || c == '\x0c'

/-- Python `str.strip()`: drop leading and trailing whitespace. -/
def pyStrip (s : Str) : Str :=
  ((s.dropWhile pyIsSpace).reverse.dropWhile pyIsSpace).reverse

/-- The error kinds distinguished by the except-branches of lines 72-79; the
branch chosen is the one whose `st.error` message is displayed. -/
inductive ErrorKind where
  | accessRestricted
  | invalidCredential
  | unclassified (raw : Str)
deriving DecidableEq

/-- Which branch of `generate_creative_content` produced the returned text. -/
inductive Outcome where
  | success
  | failure (kind : ErrorKind)
deriving DecidableEq

/-- Result of one run of the scene-generation service: the returned string,
the list of endpoint requests issued, and the branch taken. -/
structure GenOutput where
  returned : Str
  calls : List ChatRequest
  outcome : Outcome
deriving DecidableEq

/-- The fixed sentinel returned at line 80 on any failure. -/
def sentinel : Str :=
  ("Failed to generate content due to an external API error.".data)

/-- The substring classification of lines 74-79 (`if "organization_restricted"
in error_message: ... elif "Invalid API Key" in error_message: ... else ...`). -/
def classify_error (error_message : Str) : ErrorKind :=
  if occursB ("organization_restricted".data) error_message then
    ErrorKind.accessRestricted
  else if occursB ("Invalid API Key".data) error_message then
    ErrorKind.invalidCredential
  else ErrorKind.unclassified error_message

/-- The request assembled at lines 65-70 for scene generation: the chosen
model, one user-role message holding the composed prompt, temperature 0.85
and max_tokens 2500. -/
def sceneRequest (movie_type output_format video_length_style model_name : Str) :
    ChatRequest :=
  { model := model_name
    messages :=
      [{ role := ("user".data)
         content := promptOf movie_type output_format video_length_style }]
    temperature := (0.85 : ℚ)
    max_tokens := 2500 }

/-- The body of the `try` block shared by both call sites: issue the call and
extract `response.choices[0].message.content.strip()`.  An empty choice list
raises IndexError and an absent content raises AttributeError, both inside
the `try`, so they surface as `error` values with the CPython fault text. -/
def tryFetchContent (endpoint : ChatRequest → CallResult) (req : ChatRequest) :
    Except Str Str :=
  match endpoint req with
  | CallResult.raised e => Except.error e
  | CallResult.ok resp =>
    match resp.choices with
    | [] => Except.error ("list index out of range".data)
    | c :: _ =>
      match c.message.content with
      | none => Except.error ("\x27NoneType\x27 object has no attribute \x27strip\x27".data)
      | some s => Except.ok (pyStrip s)

/-- The scene-generation service `generate_creative_content` of lines 22-80:
compose the prompt, issue one call, return the stripped first-choice content
on success, and on any fault display the classified error and return the
sentinel string. -/
def generate_creative_content (movie_type output_format video_length_style : Str)
    (endpoint : ChatRequest → CallResult) (model_name : Str) : GenOutput :=
  let req := sceneRequest movie_type output_format video_length_style model_name
  match tryFetchContent endpoint req with
  | Except.ok text => { returned := text, calls := [req], outcome := Outcome.success }
  | Except.error e =>
    { returned := sentinel
      calls := [req]
      outcome := Outcome.failure (classify_error e) }

/-- The fixed image-prompt template built at line 198. -/
def imagePrompt (subject style mood : Str) : Str :=
  ("Create a detailed image prompt for an AI art generator. Scene: ".data)
    ++ subject ++ (". Art style: ".data) ++ style ++ (". Mood: ".data) ++ mood
    ++ (". Include cinematic camera angles, lighting, and composition.".data)

/-- The request assembled at lines 201-206 for image-prompt generation:
one user-role message, temperature 0.85 and max_tokens 1000. -/
def imageRequest (subject style mood model_name : Str) : ChatRequest :=
  { model := model_name
    messages := [{ role := ("user".data), content := imagePrompt subject style mood }]
    temperature := (0.85 : ℚ)
    max_tokens := 1000 }

/-- Result of one run of the image-prompt mode: the (possibly unchanged)
stored script, the requests issued, and the `st.error` text displayed on
failure, if any. -/
structure ImageOutput where
  generated_script : Str
  calls : List ChatRequest
  displayed_error : Option Str
deriving DecidableEq

/-- The image-prompt generation flow of lines 198-210: one call through the
same try-body; on success the stored script becomes the stripped first-choice
content; on any fault a single generic error message embedding the raw fault
text is displayed and the stored script is left unchanged. -/
def image_prompt_generation (subject style mood : Str)
    (endpoint : ChatRequest → CallResult) (model_name generated_script : Str) :
    ImageOutput :=
  let req := imageRequest subject style mood model_name
  match tryFetchContent endpoint req with
  | Except.ok text =>
    { generated_script := text, calls := [req], displayed_error := none }
  | Except.error e =>
    { generated_script := generated_script
      calls := [req]
      displayed_error := some (("Error generating image prompt: ".data) ++ e) }

theorem leadsB_refl (u : Str) : leadsB u u = true := by
  induction u with
  | nil => rfl
  | cons a u ih => simp [leadsB, ih]

theorem endsB_refl (u : Str) : endsB u u = true := leadsB_refl u.reverse

theorem leadsB_append_of {n a : Str} (b : Str) (h : leadsB n a = true) :
    leadsB n (a ++ b) = true := by
  induction a generalizing n with
  | nil =>
    cases n with
    | nil => simp [leadsB]
    | cons x xs => simp [leadsB] at h
  | cons y ys ih =>
    cases n with
    | nil => simp [leadsB]
    | cons x xs =>
      simp [leadsB] at h ⊢
      exact ⟨h.1, ih h.2⟩

theorem endsB_cons {m a : Str} (x : Char) (h : endsB m a = true) :
    endsB m (x :: a) = true := by
  unfold endsB at h ⊢
  rw [List.reverse_cons]
  exact leadsB_append_of [x] h

theorem occursB_of_leadsB {n u : Str} (h : leadsB n u = true) :
    occursB n u = true := by
  cases u with
  | nil => exact h
  | cons c t => simp [occursB, h]

theorem occursB_append_left {n a : Str} (b : Str) (h : occursB n a = true) :
    occursB n (a ++ b) = true := by
  induction a with
  | nil =>
    cases n with
    | nil => exact occursB_of_leadsB (by rfl)
    | cons x xs => simp [occursB, leadsB] at h
  | cons y ys ih =>
    simp only [occursB, Bool.or_eq_true] at h
    rcases h with h | h
    · exact occursB_of_leadsB (leadsB_append_of b h)
    · simp only [List.cons_append, occursB, Bool.or_eq_true]
      exact Or.inr (ih h)

theorem occursB_append_right {n : Str} (a : Str) {b : Str}
    (h : occursB n b = true) : occursB n (a ++ b) = true := by
  induction a with
  | nil => simpa using h
  | cons y ys ih =>
    simp only [List.cons_append, occursB, Bool.or_eq_true]
    exact Or.inr ih

theorem leadsB_append_split {n : Str} (u b : Str)
    (h : leadsB n (u ++ b) = true) :
    leadsB n u = true ∨
      (u.length < n.length ∧ n.take u.length = u ∧
        leadsB (n.drop u.length) b = true) := by
  induction u generalizing n with
  | nil =>
    cases n with
    | nil => exact Or.inl rfl
    | cons z m =>
      refine Or.inr ⟨by simp, by simp, ?_⟩
      simpa using h
  | cons y ys ih =>
    cases n with
    | nil => exact Or.inl rfl
    | cons z m =>
      simp only [List.cons_append, leadsB, Bool.and_eq_true, beq_iff_eq] at h
      obtain ⟨rfl, h2⟩ := h
      rcases ih h2 with h3 | ⟨hlt, htake, hdrop⟩
      · exact Or.inl (by simp [leadsB, h3])
      · refine Or.inr ⟨by simpa using Nat.succ_lt_succ hlt, ?_, ?_⟩
        · simp [List.take, htake]
        · simpa using hdrop

theorem occursB_split {n : Str} (a b : Str)
    (h : occursB n (a ++ b) = true) :
    occursB n a = true ∨ occursB n b = true ∨
      ∃ k, 0 < k ∧ k < n.length ∧
        endsB (n.take k) a = true ∧ leadsB (n.drop k) b = true := by
  induction a with
  | nil => exact Or.inr (Or.inl (by simpa using h))
  | cons x xs ih =>
    simp only [List.cons_append, occursB, Bool.or_eq_true] at h
    rcases h with h | h
    · rcases leadsB_append_split (x :: xs) b (by simpa using h) with h1 | ⟨hlt, htake, hdrop⟩
      · exact Or.inl (occursB_of_leadsB h1)
      · refine Or.inr (Or.inr ⟨(x :: xs).length, by simp, hlt, ?_, hdrop⟩)
        rw [htake]
        exact endsB_refl (x :: xs)
    · rcases ih h with h1 | h1 | ⟨k, hk0, hkn, he, hl⟩
      · exact Or.inl (by simp [occursB, h1])
      · exact Or.inr (Or.inl h1)
      · exact Or.inr (Or.inr ⟨k, hk0, hkn, endsB_cons x he, hl⟩)

theorem someTailLeads_spec {m b : Str} (h : someTailLeads m b = false) :
    ∀ j, 0 < j → j < m.length → leadsB (m.drop j) b = false := by
  induction m with
  | nil =>
    intro j _ hlen
    simp at hlen
  | cons c t ih =>
    intro j hj hlen
    cases t with
    | nil =>
      simp at hlen
      omega
    | cons d u =>
      simp only [someTailLeads, Bool.or_eq_false_iff] at h
      obtain ⟨h1, h2⟩ := h
      cases j with
      | zero => omega
      | succ j2 =>
        simp only [List.drop_succ_cons]
        cases Nat.eq_zero_or_pos j2 with
        | inl hz =>
          subst hz
          simpa using h1
        | inr hpos =>
          refine ih h2 j2 hpos ?_
          simp only [List.length_cons] at hlen ⊢
          omega

theorem occursB_sandwich {n : Str} (p t q : Str)
    (hp : occursB n p = false) (ht : occursB n t = false)
    (hq : occursB n q = false)
    (hL : someTailLeads n.reverse p.reverse = false)
    (hR : someTailLeads n q = false) :
    occursB n (p ++ (t ++ q)) = false := by
  cases hcase : occursB n (p ++ (t ++ q)) with
  | false => rfl
  | true =>
    exfalso
    rcases occursB_split p (t ++ q) hcase with h1 | h1 | ⟨k, hk0, hkn, he, _⟩
    · simp [h1] at hp
    · rcases occursB_split t q h1 with h2 | h2 | ⟨k, hk0, hkn, _, hl⟩
      · simp [h2] at ht
      · simp [h2] at hq
      · simp [someTailLeads_spec hR k hk0 hkn] at hl
    · unfold endsB at he
      rw [List.reverse_take] at he
      have hspec := someTailLeads_spec hL (n.length - k) (by omega)
        (by rw [List.length_reverse]; omega)
      simp [hspec] at he

/-- C1 counterexample: an endpoint response with one choice whose message
content is absent makes `generate_creative_content` take the failure branch,
so the claim that every response with at least one choice yields a Success
result is false at this input. -/
theorem c1_counterexample :
    (generate_creative_content ("Drama".data) ("Shooting Script".data)
        ("Film Scene (Longer Scene - 3+ min)".data)
        (fun _ => CallResult.ok { choices := [{ message := { content := none } }] })
        ("llama-3.3-70b-versatile".data)).outcome ≠ Outcome.success := by
  decide

/-- C1 (amended): for every endpoint response containing at least one choice
whose message content is present, the service returns the first choice's
content with surrounding whitespace trimmed, takes the success branch, and
issues exactly one call holding a single user-role message with the composed
prompt, temperature 0.85 and max_tokens 2500. -/
theorem c1_success_contract (mt of vls mn : Str) (resp : ChatResponse)
    (c : Choice) (rest : List Choice) (s : Str)
    (hc : resp.choices = c :: rest) (hs : c.message.content = some s) :
    (generate_creative_content mt of vls (fun _ => CallResult.ok resp) mn).returned
        = pyStrip s
    ∧ (generate_creative_content mt of vls (fun _ => CallResult.ok resp) mn).outcome
        = Outcome.success
    ∧ (generate_creative_content mt of vls (fun _ => CallResult.ok resp) mn).calls
        = [sceneRequest mt of vls mn]
    ∧ (sceneRequest mt of vls mn).messages
        = [{ role := ("user".data), content := promptOf mt of vls }]
    ∧ (sceneRequest mt of vls mn).temperature = (0.85 : ℚ)
    ∧ (sceneRequest mt of vls mn).max_tokens = 2500 := by
  obtain ⟨cs⟩ := resp
  have hc2 : cs = c :: rest := hc
  subst hc2
  obtain ⟨⟨oc⟩⟩ := c
  have hs2 : oc = some s := hs
  subst hs2
  exact ⟨rfl, rfl, rfl, rfl, rfl, rfl⟩

/-- C1 witness: the amended theorem evaluated on a concrete one-choice
response with present content. -/
theorem c1_witness :
    (generate_creative_content ("Drama".data) ("Dialog Script".data)
        ("TikTok (Short Video - ~30s)".data)
        (fun _ => CallResult.ok
          { choices := [{ message := { content := some ("  INT. SHIP - NIGHT  ".data) } }] })
        ("gemma-7b-it".data)).returned = pyStrip ("  INT. SHIP - NIGHT  ".data)
    ∧ (generate_creative_content ("Drama".data) ("Dialog Script".data)
        ("TikTok (Short Video - ~30s)".data)
        (fun _ => CallResult.ok
          { choices := [{ message := { content := some ("  INT. SHIP - NIGHT  ".data) } }] })
        ("gemma-7b-it".data)).outcome = Outcome.success :=
  ⟨(c1_success_contract _ _ _ _ _ _ _ _ rfl rfl).1,
    (c1_success_contract _ _ _ _ _ _ _ _ rfl rfl).2.1⟩

/-- C2: every fault raised by the endpoint yields the sentinel text, and the
outcome is classified by substring: organization_restricted gives
AccessRestricted, Invalid API Key gives InvalidCredential, anything else is
Unclassified with the raw fault text preserved. -/
theorem c2_fault_classification (mt of vls mn msg : Str) :
    (generate_creative_content mt of vls (fun _ => CallResult.raised msg) mn).returned
        = sentinel
    ∧ (occursB ("organization_restricted".data) msg = true →
        (generate_creative_content mt of vls (fun _ => CallResult.raised msg) mn).outcome
          = Outcome.failure ErrorKind.accessRestricted)
    ∧ (occursB ("organization_restricted".data) msg = false →
        occursB ("Invalid API Key".data) msg = true →
        (generate_creative_content mt of vls (fun _ => CallResult.raised msg) mn).outcome
          = Outcome.failure ErrorKind.invalidCredential)
    ∧ (occursB ("organization_restricted".data) msg = false →
        occursB ("Invalid API Key".data) msg = false →
        (generate_creative_content mt of vls (fun _ => CallResult.raised msg) mn).outcome
          = Outcome.failure (ErrorKind.unclassified msg)) := by
  refine ⟨rfl, ?_, ?_, ?_⟩
  · intro h1
    show Outcome.failure (classify_error msg) = _
    simp [classify_error, h1]
  · intro h1 h2
    show Outcome.failure (classify_error msg) = _
    simp [classify_error, h1, h2]
  · intro h1 h2
    show Outcome.failure (classify_error msg) = _
    simp [classify_error, h1, h2]

/-- C2 witness: a concrete unmatched fault text is preserved raw and the
sentinel is returned. -/
theorem c2_witness :
    (generate_creative_content ("Drama".data) ("Dialog Script".data)
        ("YouTube (Medium Video - 1-3 min)".data)
        (fun _ => CallResult.raised ("connection reset by peer".data))
        ("gemma-7b-it".data)).returned = sentinel
    ∧ (generate_creative_content ("Drama".data) ("Dialog Script".data)
        ("YouTube (Medium Video - 1-3 min)".data)
        (fun _ => CallResult.raised ("connection reset by peer".data))
        ("gemma-7b-it".data)).outcome
        = Outcome.failure (ErrorKind.unclassified ("connection reset by peer".data)) :=
  ⟨(c2_fault_classification ("Drama".data) ("Dialog Script".data)
      ("YouTube (Medium Video - 1-3 min)".data) ("gemma-7b-it".data)
      ("connection reset by peer".data)).1,
    (c2_fault_classification ("Drama".data) ("Dialog Script".data)
      ("YouTube (Medium Video - 1-3 min)".data) ("gemma-7b-it".data)
      ("connection reset by peer".data)).2.2.2 (by decide) (by decide)⟩

/-- C6: the service is a total function of its inputs: whatever the endpoint
does, it either returns the success text of the try body or the sentinel with
the classified failure, so nothing escapes the service boundary. -/
theorem c6_total_no_reraise (mt of vls mn : Str)
    (endpoint : ChatRequest → CallResult) :
    (∃ t, tryFetchContent endpoint (sceneRequest mt of vls mn) = Except.ok t
        ∧ (generate_creative_content mt of vls endpoint mn).returned = t
        ∧ (generate_creative_content mt of vls endpoint mn).outcome = Outcome.success)
    ∨ (∃ e, tryFetchContent endpoint (sceneRequest mt of vls mn) = Except.error e
        ∧ (generate_creative_content mt of vls endpoint mn).returned = sentinel
        ∧ (generate_creative_content mt of vls endpoint mn).outcome
            = Outcome.failure (classify_error e)) := by
  cases h : tryFetchContent endpoint (sceneRequest mt of vls mn) with
  | ok t => exact Or.inl ⟨t, rfl, by simp [generate_creative_content, h], by
      simp [generate_creative_content, h]⟩
  | error e => exact Or.inr ⟨e, rfl, by simp [generate_creative_content, h], by
      simp [generate_creative_content, h]⟩

/-- C7: prompt composition is deterministic: equal inputs, with format and
length drawn from their closed enumerations, give equal prompts; the
composer is a pure function with no side effects. -/
theorem c7_deterministic (mt of vls mt2 of2 vls2 : Str)
    (_hof : of ∈ outputFormats) (_hvls : vls ∈ lengthStyles)
    (h1 : mt = mt2) (h2 : of = of2) (h3 : vls = vls2) :
    promptOf mt of vls = promptOf mt2 of2 vls2 := by
  subst h1
  subst h2
  subst h3
  rfl

/-- C7 witness: determinism instantiated at a concrete triple. -/
theorem c7_witness :
    promptOf ("Sci-Fi Thriller".data) ("Shooting Script".data)
        ("Film Scene (Longer Scene - 3+ min)".data)
      = promptOf ("Sci-Fi Thriller".data) ("Shooting Script".data)
        ("Film Scene (Longer Scene - 3+ min)".data) :=
  c7_deterministic _ _ _ _ _ _ (by decide) (by decide) rfl rfl rfl

/-- C8: a format outside the three recognized names and a length outside the
three recognized names both select the empty fragment: the composer silently
omits the instruction with no fallback text and no error (it is total). -/
theorem c8_unrecognized_silent (of vls : Str)
    (hof : of ∉ outputFormats) (hvls : vls ∉ lengthStyles) :
    format_specific_instructions of = [] ∧ length_specific_instructions vls = [] := by
  simp only [outputFormats, lengthStyles, List.mem_cons, List.not_mem_nil, or_false,
    not_or] at hof hvls
  obtain ⟨h1, h2, h3⟩ := hof
  obtain ⟨h4, h5, h6⟩ := hvls
  constructor
  · unfold format_specific_instructions
    rw [if_neg h3, if_neg h2, if_neg h1]
  · unfold length_specific_instructions
    rw [if_neg h6, if_neg h5, if_neg h4]

/-- C8 witness: unrecognized members evaluated concretely. -/
theorem c8_witness :
    format_specific_instructions ("Haiku".data) = []
    ∧ length_specific_instructions ("Opera (4 hours)".data) = [] :=
  c8_unrecognized_silent _ _ (by decide) (by decide)

/-- C9: a fault whose text contains both organization_restricted and Invalid
API Key is classified AccessRestricted, because that branch is tested first. -/
theorem c9_restricted_shadows_credential (mt of vls mn msg : Str)
    (h1 : occursB ("organization_restricted".data) msg = true)
    (_h2 : occursB ("Invalid API Key".data) msg = true) :
    (generate_creative_content mt of vls (fun _ => CallResult.raised msg) mn).outcome
      = Outcome.failure ErrorKind.accessRestricted := by
  show Outcome.failure (classify_error msg) = _
  simp [classify_error, h1]

/-- C9 witness: a concrete fault text containing both keywords. -/
theorem c9_witness :
    occursB ("organization_restricted".data)
        ("organization_restricted: Invalid API Key".data) = true
    ∧ occursB ("Invalid API Key".data)
        ("organization_restricted: Invalid API Key".data) = true
    ∧ (generate_creative_content ("Drama".data) ("Dialog Script".data)
        ("TikTok (Short Video - ~30s)".data)
        (fun _ => CallResult.raised ("organization_restricted: Invalid API Key".data))
        ("gemma-7b-it".data)).outcome
        = Outcome.failure ErrorKind.accessRestricted :=
  ⟨by decide, by decide,
    c9_restricted_shadows_credential _ _ _ _ _ (by decide) (by decide)⟩

/-- C10: a response that is malformed on the success path, with an empty
choice list or an absent first-choice content, is caught inside the try
block like a network fault: the sentinel is returned and the outcome is the
classification of the corresponding Python fault text. -/
theorem c10_malformed_response_safe (mt of vls mn : Str) (resp : ChatResponse)
    (h : resp.choices = []
      ∨ ∃ c rest, resp.choices = c :: rest ∧ c.message.content = none) :
    (generate_creative_content mt of vls (fun _ => CallResult.ok resp) mn).returned
        = sentinel
    ∧ ∃ e, (generate_creative_content mt of vls (fun _ => CallResult.ok resp) mn).outcome
        = Outcome.failure (classify_error e) := by
  obtain ⟨cs⟩ := resp
  rcases h with h | ⟨c, rest, hc, hcontent⟩
  · have h2 : cs = [] := h
    subst h2
    exact ⟨rfl, ("list index out of range".data), rfl⟩
  · have hc2 : cs = c :: rest := hc
    subst hc2
    obtain ⟨⟨oc⟩⟩ := c
    have hcontent2 : oc = none := hcontent
    subst hcontent2
    exact ⟨rfl, ("\x27NoneType\x27 object has no attribute \x27strip\x27".data), rfl⟩

/-- C10 witness: the empty-choices response evaluated concretely. -/
theorem c10_witness :
    (generate_creative_content ("Drama".data) ("Storyboard Text".data)
        ("TikTok (Short Video - ~30s)".data)
        (fun _ => CallResult.ok { choices := [] }) ("gemma-7b-it".data)).returned
        = sentinel
    ∧ ∃ e, (generate_creative_content ("Drama".data) ("Storyboard Text".data)
        ("TikTok (Short Video - ~30s)".data)
        (fun _ => CallResult.ok { choices := [] }) ("gemma-7b-it".data)).outcome
        = Outcome.failure (classify_error e) :=
  c10_malformed_response_safe _ _ _ _ _ (Or.inl rfl)

/-- C3 counterexample: the claim quantifies over every topic, but the topic
is interpolated into the prompt verbatim, so a topic equal to the Dialog
Script fragment makes that fragment occur in a prompt whose requested format
is Storyboard Text: two format fragments occur at once. -/
theorem c3_counterexample :
    ("Storyboard Text".data) ∈ outputFormats
    ∧ ("Dialog Script".data) ≠ ("Storyboard Text".data)
    ∧ occursB (format_specific_instructions ("Dialog Script".data))
        (promptOf (format_specific_instructions ("Dialog Script".data))
          ("Storyboard Text".data) ("TikTok (Short Video - ~30s)".data)) = true := by
  refine ⟨by decide, by decide, ?_⟩
  unfold promptOf
  exact occursB_append_left _
    (occursB_append_right _ (occursB_of_leadsB (leadsB_refl _)))

/-- C3 (amended): for every topic that does not itself contain any of the
six instruction fragments, and format and length drawn from their closed
enumerations, the composed prompt contains the fragment keyed by the
requested format member and not the other two, and likewise for length. -/
theorem c3_exactly_one_fragment (mt of vls : Str)
    (hof : of ∈ outputFormats) (hvls : vls ∈ lengthStyles)
    (hmt : ∀ frag ∈ allInstructionFragments, occursB frag mt = false) :
    (occursB (format_specific_instructions of) (promptOf mt of vls) = true
      ∧ ∀ of2 ∈ outputFormats, of2 ≠ of →
          occursB (format_specific_instructions of2) (promptOf mt of vls) = false)
    ∧ occursB (length_specific_instructions vls) (promptOf mt of vls) = true
    ∧ ∀ vls2 ∈ lengthStyles, vls2 ≠ vls →
        occursB (length_specific_instructions vls2) (promptOf mt of vls) = false := by
  simp only [outputFormats, lengthStyles, List.mem_cons, List.not_mem_nil,
    or_false] at hof hvls
  rcases hof with rfl | rfl | rfl <;> rcases hvls with rfl | rfl | rfl <;>
    refine ⟨⟨?_, ?_⟩, ?_, ?_⟩ <;>
    first
      | (intro z hz hne
         simp only [outputFormats, lengthStyles, List.mem_cons, List.not_mem_nil,
           or_false] at hz
         rcases hz with rfl | rfl | rfl <;>
           first
             | exact absurd rfl hne
             | (unfold promptOf
                rw [List.append_assoc]
                exact occursB_sandwich _ _ _ (by decide) (hmt _ (by decide))
                  (by decide) (by decide) (by decide)))
      | (unfold promptOf
         exact occursB_append_right _ (by decide))

/-- C3 witness: the amended theorem evaluated at a concrete benign topic. -/
theorem c3_witness :
    occursB (format_specific_instructions ("Shooting Script".data))
        (promptOf ("Sci-Fi Thriller".data) ("Shooting Script".data)
          ("Film Scene (Longer Scene - 3+ min)".data)) = true
    ∧ occursB (format_specific_instructions ("Storyboard Text".data))
        (promptOf ("Sci-Fi Thriller".data) ("Shooting Script".data)
          ("Film Scene (Longer Scene - 3+ min)".data)) = false :=
  ⟨(c3_exactly_one_fragment ("Sci-Fi Thriller".data) _ _ (by decide) (by decide)
      (by decide)).1.1,
    (c3_exactly_one_fragment ("Sci-Fi Thriller".data) _ _ (by decide) (by decide)
      (by decide)).1.2 _ (by decide) (by decide)⟩

/-- C4: every one of the 18 shot-type names occurs in the composed prompt,
whatever the topic, format and length arguments are. -/
theorem c4_all_shot_types (mt of vls shot : Str) (h : shot ∈ MOVIE_SHOT_TYPES) :
    occursB shot (promptOf mt of vls) = true := by
  have hs : occursB shot shot_instructions = true := by
    simp only [MOVIE_SHOT_TYPES, List.mem_cons, List.not_mem_nil, or_false] at h
    rcases h with rfl | rfl | rfl | rfl | rfl | rfl | rfl | rfl | rfl | rfl | rfl |
      rfl | rfl | rfl | rfl | rfl | rfl | rfl <;> decide
  unfold promptOf afterTopic
  apply occursB_append_right
  apply occursB_append_left
  apply occursB_append_left
  apply occursB_append_left
  apply occursB_append_left
  apply occursB_append_left
  exact occursB_append_right _ hs

/-- C4 witness: one concrete shot-type name in one concrete prompt. -/
theorem c4_witness :
    occursB ("Close-Up Shot".data)
      (promptOf ("Drama".data) ("Dialog Script".data)
        ("YouTube (Medium Video - 1-3 min)".data)) = true :=
  c4_all_shot_types _ _ _ _ (by decide)

/-- C5 counterexample: on a fault containing organization_restricted, the
image-prompt mode does not return the sentinel (the stored script is left
unchanged) and it displays the generic message embedding the raw fault text
instead of a classified one, so the claimed identical error contract is
false at this input. -/
theorem c5_counterexample :
    (image_prompt_generation ("a cyberpunk city".data) ("Anime".data) ("Epic".data)
        (fun _ => CallResult.raised ("organization_restricted".data))
        ("gemma-7b-it".data) ([])).generated_script ≠ sentinel
    ∧ (image_prompt_generation ("a cyberpunk city".data) ("Anime".data) ("Epic".data)
        (fun _ => CallResult.raised ("organization_restricted".data))
        ("gemma-7b-it".data) ([])).displayed_error
        = some ("Error generating image prompt: organization_restricted".data) := by
  exact ⟨by decide, rfl⟩

/-- C5 (amended): the image-prompt mode shares the call contract of scene
generation, with the image template, max_tokens 1000, one user-role message,
temperature 0.85 and the same trimmed first-choice extraction on success,
but not the error contract: on any fault it displays one generic message
embedding the raw fault text and leaves the stored script unchanged, with
no substring classification and no sentinel. -/
theorem c5_image_mode_contract (subject style mood mn prev : Str)
    (endpoint : ChatRequest → CallResult) :
    (image_prompt_generation subject style mood endpoint mn prev).calls
        = [imageRequest subject style mood mn]
    ∧ (imageRequest subject style mood mn).messages
        = [{ role := ("user".data), content := imagePrompt subject style mood }]
    ∧ (imageRequest subject style mood mn).temperature = (0.85 : ℚ)
    ∧ (imageRequest subject style mood mn).max_tokens = 1000
    ∧ (∀ e, endpoint (imageRequest subject style mood mn) = CallResult.raised e →
        (image_prompt_generation subject style mood endpoint mn prev).generated_script
            = prev
        ∧ (image_prompt_generation subject style mood endpoint mn prev).displayed_error
            = some (("Error generating image prompt: ".data) ++ e))
    ∧ (∀ resp c rest s,
        endpoint (imageRequest subject style mood mn) = CallResult.ok resp →
        resp.choices = c :: rest → c.message.content = some s →
        (image_prompt_generation subject style mood endpoint mn prev).generated_script
            = pyStrip s
        ∧ (image_prompt_generation subject style mood endpoint mn prev).displayed_error
            = none) := by
  refine ⟨?_, rfl, rfl, rfl, ?_, ?_⟩
  · cases h : tryFetchContent endpoint (imageRequest subject style mood mn) with
    | ok t => simp [image_prompt_generation, h]
    | error e => simp [image_prompt_generation, h]
  · intro e he
    have h : tryFetchContent endpoint (imageRequest subject style mood mn)
        = Except.error e := by
      unfold tryFetchContent
      rw [he]
    constructor <;> simp [image_prompt_generation, h]
  · intro resp c rest s he hc hs
    have h : tryFetchContent endpoint (imageRequest subject style mood mn)
        = Except.ok (pyStrip s) := by
      unfold tryFetchContent
      rw [he]
      obtain ⟨cs⟩ := resp
      have hc2 : cs = c :: rest := hc
      subst hc2
      obtain ⟨⟨oc⟩⟩ := c
      have hs2 : oc = some s := hs
      subst hs2
      rfl
    constructor <;> simp [image_prompt_generation, h]

/-- C5 witness: the amended fault behaviour evaluated concretely. -/
theorem c5_witness :
    (image_prompt_generation ("a castle".data) ("Pixel Art".data) ("Dreamy".data)
        (fun _ => CallResult.raised ("boom".data)) ("gemma-7b-it".data)
        ("previous output".data)).generated_script = ("previous output".data)
    ∧ (image_prompt_generation ("a castle".data) ("Pixel Art".data) ("Dreamy".data)
        (fun _ => CallResult.raised ("boom".data)) ("gemma-7b-it".data)
        ("previous output".data)).displayed_error
        = some (("Error generating image prompt: ".data) ++ ("boom".data)) :=
  (c5_image_mode_contract ("a castle".data) ("Pixel Art".data) ("Dreamy".data)
    ("gemma-7b-it".data) ("previous output".data)
    (fun _ => CallResult.raised ("boom".data))).2.2.2.2.1 ("boom".data) rfl

end MovieAI
